import Mathlib

/-!
Verification of the multi-agent decision framework's orchestration core
(`src/App.tsx`, `src/unnamed/part_000` = `services/geminiService.ts`,
`src/unnamed/part_006` = `components/SummaryPanel.tsx`).

Strings from the JavaScript source are modelled as `String`/`List Char`,
JavaScript numbers as `ℚ` (all arithmetic the claims touch is exact on the
rationals involved), and the external LLM/JSON-parsing effects as explicit
parameters describing their outcome.
-/

/- ### Token/length guard (src/App.tsx, lines 110-141) -/

/-- Model of `countTokens` from src/App.tsx line 110: `Math.ceil(text.length / 4)`. -/
def countTokens (s : List Char) : Nat := (s.length + 3) / 4

/-- The prefix prepended on truncation, from the template literal on
src/App.tsx line 140: the bracketed notice followed by two newlines. -/
def truncationMarker : List Char :=
  "[... previous content truncated to fit token limit ...]\n\n".data

/-- Model of `truncatePromptIfNeeded` from src/App.tsx lines 118-141.  If the estimate is
within budget the prompt is returned unchanged; otherwise
`charsToRemove = (currentTokens - maxTokens) * 4` characters are removed from the
front, the cut point is advanced to the next newline (the `while` loop at lines
129-132, i.e. `dropWhile (· ≠ newline)` after `drop charsToRemove`; the newline
itself is kept, and if none exists the remainder is empty), and the marker is
prepended. -/
def truncatePromptIfNeeded (prompt : List Char) (maxTokens : Nat) : List Char :=
  if countTokens prompt ≤ maxTokens then prompt
  else
    truncationMarker ++
      ((prompt.drop ((countTokens prompt - maxTokens) * 4)).dropWhile
        (fun c => c ≠ '\n'))

/- ### Statistics engine (src/App.tsx, lines 417-431; src/unnamed/part_006, lines 7-26) -/

/-- Model of the `mean` computation from src/App.tsx line 419: `scores.reduce((sum, s) => sum + s, 0) / scores.length`. -/
def mean (scores : List ℚ) : ℚ := scores.sum / scores.length

/-- The ascending sort `[...scores].sort((a, b) => a - b)` from src/App.tsx line 420
(and src/unnamed/part_006 line 9), i.e. the sorted-ascending permutation of the
scores (any correct comparison sort; insertion sort is used so that the model
evaluates by reduction). -/
def sortedScores (scores : List ℚ) : List ℚ :=
  List.insertionSort (· ≤ ·) scores

/-- Model of the `median` computation from src/App.tsx lines 420-424 (identical to `calculateMedian` in
src/unnamed/part_006 lines 7-14): `mid = floor(length / 2)`; mean of the two middle
elements when the length is even, the middle element when it is odd. -/
def median (scores : List ℚ) : ℚ :=
  if (sortedScores scores).length % 2 = 0 then
    ((sortedScores scores).getD ((sortedScores scores).length / 2 - 1) 0 +
      (sortedScores scores).getD ((sortedScores scores).length / 2) 0) / 2
  else
    (sortedScores scores).getD ((sortedScores scores).length / 2) 0

/-- Model of the `variance` computation from src/App.tsx line 425 (and src/unnamed/part_006 line 19):
`scores.reduce((sum, s) => sum + (s - mean)^2, 0) / scores.length` — the population
variance, dividing by N. -/
def variance (scores : List ℚ) : ℚ :=
  (scores.map (fun s => (s - mean scores) ^ 2)).sum / scores.length

/-- The confidence mapping of src/App.tsx lines 428-431.  The source compares
`standardDeviation = Math.sqrt(variance)` with 5 and 15; since a square root and
its bound are both nonnegative, `sqrt v ≤ c ↔ v ≤ c²`, so the executable model
compares `variance` with 25 = 5² and 225 = 15². -/
def aggConfidenceLevel (scores : List ℚ) : String :=
  if variance scores ≤ 25 then "High"
  else if variance scores ≤ 225 then "Medium"
  else "Low"

/-- Model of `calculateConfidenceLevel` from src/unnamed/part_006 lines 16-26: returns
"Low" for an empty list, otherwise the same standard-deviation thresholds as the
aggregation path (modelled on the variance as in `aggConfidenceLevel`). -/
def calculateConfidenceLevel (scores : List ℚ) : String :=
  if scores.length = 0 then "Low"
  else if variance scores ≤ 25 then "High"
  else if variance scores ≤ 225 then "Medium"
  else "Low"

/- ### Decision mappings (src/App.tsx, lines 433-436 and 854-877) -/

/-- The aggregation path's `decision` from src/App.tsx lines 433-436:
`'Do not proceed'`, overridden to `'Proceed'` when `median >= 70`, else to
`'Proceed with Caution'` when `median >= 50`. -/
def aggDecision (median : ℚ) : String :=
  if median ≥ 70 then "Proceed"
  else if median ≥ 50 then "Proceed with Caution"
  else "Do not proceed"

/-- JavaScript `Math.round`: round half toward positive infinity. -/
def jsRound (q : ℚ) : ℤ := ⌊q + 1 / 2⌋

/-- The rendering path's recommendation from `renderFinalDecision`,
src/App.tsx lines 854-877: computed from `medianScore = Math.round(median)` with
thresholds `> 80`, `>= 50`, `>= 30`. -/
def renderRecommendation (median : ℚ) : String :=
  if jsRound median > 80 then "Proceed"
  else if jsRound median ≥ 50 then "Proceed with Caution"
  else if jsRound median ≥ 30 then "Not Recommended"
  else "Do Not Proceed"

/-- Modelled from the spec: the decision thresholds of spec.md §4.6, applied to
the median directly — `median > 80 → Proceed`; `50 ≤ median ≤ 80 →
ProceedWithCaution`; `30 ≤ median < 50 → NotRecommended`; `median < 30 →
DoNotProceed` — rendered with the rendering path's category strings so the two
can be compared. -/
def specDecision (median : ℚ) : String :=
  if median > 80 then "Proceed"
  else if 50 ≤ median then "Proceed with Caution"
  else if 30 ≤ median then "Not Recommended"
  else "Do Not Proceed"

/- ### Scoring-call parsing and the iteration loop (src/App.tsx, lines 328-353 and 363-407) -/

/-- Outcome of `JSON.parse` on a scoring call's output, restricted to the fields
the code reads (src/App.tsx lines 329-338): either a parsed object carrying
`feasibilityScore`, `rationale` and a possibly-absent (`undefined`/`null`, i.e.
falsy) `keyFactors`, or a thrown parse error with its message. -/
inductive ParseOutcome where
  | ok (feasibilityScore : ℚ) (rationale : String) (keyFactors : Option (List String))
  | err (msg : String)
deriving DecidableEq

/-- The per-iteration evaluation record built in Phase 4 of `runSingleIteration`. -/
structure EvaluationResult where
  iteration : Nat
  feasibilityScore : ℚ
  rationale : String
  keyFactors : List String
deriving DecidableEq

/-- The `try`/`catch` of `runSingleIteration`, src/App.tsx lines 328-353: on a
successful parse the record takes `feasibilityScore` and `rationale` verbatim and
`keyFactors := parsedEval.keyFactors || []`; on a parse failure the record gets the
neutral score 50, a rationale embedding the error message, and
`keyFactors = ["Parsing error occurred"]`. -/
def evaluationResult (iterationNumber : Nat) (parsed : ParseOutcome) : EvaluationResult :=
  match parsed with
  | .ok score rationale keyFactors =>
      { iteration := iterationNumber
        feasibilityScore := score
        rationale := rationale
        keyFactors := keyFactors.getD [] }
  | .err msg =>
      { iteration := iterationNumber
        feasibilityScore := 50
        rationale := "Evaluation " ++ toString iterationNumber ++ " failed to parse: " ++ msg
        keyFactors := ["Parsing error occurred"] }

/-- The `for (let i = 1; i <= numberOfIterations; i++)` loop of
`runDiscussionAndDecision`, src/App.tsx lines 371-407: it pushes exactly one
evaluation record per iteration, numbered 1..N.  The parse outcome of each
iteration's scoring call is abstracted as a function of the iteration number. -/
def independentEvaluations (n : Nat) (parse : Nat → ParseOutcome) : List EvaluationResult :=
  (List.range n).map (fun i => evaluationResult (i + 1) (parse (i + 1)))

/- ### Agent invoker (src/App.tsx lines 58-105; src/unnamed/part_000 lines 48-142) -/

/-- Outcome of the external `ai.models.generateContent` call inside
`runAgentQuery`: either generated text (taken after the optional JSON-fence
strip of src/unnamed/part_000 lines 125-131, which only rewrites successful
content) or a thrown error. -/
inductive GenerationOutcome where
  | success (text : String)
  | failure
deriving DecidableEq

/-- The content string returned by `runAgentQuery`, src/unnamed/part_000 lines
48-142: a fixed error text when the API key is missing (lines 49-54), the
generated text on success, and the `catch` branch's error text (lines 135-141)
when the generation call throws. -/
def runAgentQueryContent (apiKeyPresent : Bool) (agentName : String)
    (outcome : GenerationOutcome) : String :=
  if !apiKeyPresent then
    "Error: GEMINI_API_KEY is not configured. Please set the GEMINI_API_KEY environment variable."
  else
    match outcome with
    | .success text => text
    | .failure =>
        "Error: Could not get response from agent " ++ agentName ++ ". Check console for details."

/-- The metrics record built by `runAgent` (src/App.tsx lines 94-104).
`duration` is the `performance.now()` difference, carried abstractly. -/
structure AgentMetricsModel where
  duration : ℚ
  inputTokens : Nat
  outputTokens : Nat
deriving DecidableEq

/-- The `{ result, metrics }` pair returned by `runAgent`. -/
structure RunAgentResult where
  result : String
  metrics : AgentMetricsModel
deriving DecidableEq

/-- Model of `runAgent` from src/App.tsx lines 58-105.  The two guard branches (configs
object absent, per-agent config absent, lines 59-68) return error text with
all-zero metrics; otherwise the call always completes with
`inputTokens = ceil(prompt.length / 4)`, the content from `runAgentQuery`
(which swallows generation failures), `outputTokens = ceil(result.length / 4)`
and `duration` the elapsed wall time `elapsed`. -/
def runAgent (configsProvided : Bool) (configFound : Bool) (agentId : String)
    (agentName : String) (prompt : String) (apiKeyPresent : Bool)
    (outcome : GenerationOutcome) (elapsed : ℚ) : RunAgentResult :=
  if !configsProvided then
    { result := "Error: Agent configs not provided."
      metrics := { duration := 0, inputTokens := 0, outputTokens := 0 } }
  else if !configFound then
    { result := "Error: Config not found for " ++ agentId
      metrics := { duration := 0, inputTokens := 0, outputTokens := 0 } }
  else
    { result := runAgentQueryContent apiKeyPresent agentName outcome
      metrics :=
        { duration := elapsed
          inputTokens := countTokens prompt.data
          outputTokens := countTokens (runAgentQueryContent apiKeyPresent agentName outcome).data } }

/- ### Which calls carry the web-search capability (src/App.tsx lines 212-353, 486-615) -/

/-- Model of the JavaScript `id.startsWith(pre)` test (src/App.tsx lines 242,
701): the first string begins with the second, decided on the character
lists. -/
def jsStartsWith (s pre : String) : Bool :=
  pre.data.isPrefixOf s.data

/-- One `runAgent` invocation, reduced to the participant id and the
`useGoogleSearch` argument passed to it. -/
structure AgentCall where
  agentId : String
  useSearch : Bool
deriving DecidableEq

/-- Constant `expertAgentIds` from src/App.tsx line 214. -/
def expertAgentIds : List String := ["expert_1", "expert_2", "expert_3"]

/-- Constant `discussionTurns` from src/App.tsx line 216. -/
def discussionTurns : Nat := 2

/-- The sequence of `runAgent` invocations made by `runSingleIteration`
(src/App.tsx lines 212-353): for each of the `discussionTurns` turns, each expert
id is invoked with `useSearchForThisAgent = googleSearchEnabled &&
id.startsWith('expert_')` (lines 241-244); then the final decision agent is
invoked with search hard-coded to `false` (line 315). -/
def runSingleIterationCalls (googleSearchEnabled : Bool) : List AgentCall :=
  (List.range discussionTurns).flatMap (fun _ =>
    expertAgentIds.map (fun id =>
      { agentId := id, useSearch := googleSearchEnabled && jsStartsWith id "expert_" })) ++
  [{ agentId := "final_decision_agent", useSearch := false }]

/-- The sequence of `runAgent` invocations of a full `runSimulation`
(src/App.tsx lines 486-615): the classification and summarize calls pass `false`
(lines 512, 532/546), then `runDiscussionAndDecision` runs `n` iterations with
the run-level toggle, then the framework tracker call passes `false` (line 602). -/
def runSimulationCalls (n : Nat) (googleSearchEnabled : Bool) : List AgentCall :=
  [{ agentId := "proposal_classification_agent", useSearch := false },
   { agentId := "proposal_information_summarize_agent", useSearch := false }] ++
  (List.range n).flatMap (fun _ => runSingleIterationCalls googleSearchEnabled) ++
  [{ agentId := "framework_tracker_agent", useSearch := false }]

/- ### Theorems -/

/-- C10: when the scoring output parses but `keyFactors` is absent (falsy), the
record's `keyFactors` is `[]`, while `feasibilityScore` and `rationale` are taken
verbatim from the parsed object. -/
theorem absent_keyfactors_default_to_empty_list (n : Nat) (s : ℚ) (r : String) :
    (evaluationResult n (ParseOutcome.ok s r none)).keyFactors = [] ∧
    (evaluationResult n (ParseOutcome.ok s r none)).feasibilityScore = s ∧
    (evaluationResult n (ParseOutcome.ok s r none)).rationale = r :=
  ⟨rfl, rfl, rfl⟩

/-- C5 counterexample: a successfully parsed out-of-range score (150) is stored
verbatim in the iteration record, so `feasibilityScore ≤ 100` fails and no
degradation to the neutral score happens. -/
theorem out_of_range_parsed_score_stored_verbatim :
    (evaluationResult 1 (ParseOutcome.ok 150 "strong proposal" none)).feasibilityScore = 150 ∧
    ¬ (evaluationResult 1 (ParseOutcome.ok 150 "strong proposal" none)).feasibilityScore ≤ 100 := by
  decide

/-- C5 amended: every iteration record has `0 ≤ feasibilityScore ≤ 100` provided
that any successfully parsed score is itself in `[0, 100]`; a parse failure
yields the in-range neutral score 50.  Out-of-range parsed scores are stored
verbatim (no clamping), per the counterexample. -/
theorem score_in_range_under_range_respecting_parse (n : Nat) (p : ParseOutcome)
    (h : ∀ s r kf, p = ParseOutcome.ok s r kf → 0 ≤ s ∧ s ≤ 100) :
    0 ≤ (evaluationResult n p).feasibilityScore ∧
    (evaluationResult n p).feasibilityScore ≤ 100 := by
  cases p with
  | ok s r kf => simpa [evaluationResult] using h s r kf rfl
  | err msg =>
      exact ⟨by norm_num [evaluationResult], by norm_num [evaluationResult]⟩

/-- Witness for C5's amended theorem at a concrete parse failure. -/
theorem score_in_range_under_range_respecting_parse_witness :
    0 ≤ (evaluationResult 1 (ParseOutcome.err "Unexpected token")).feasibilityScore ∧
    (evaluationResult 1 (ParseOutcome.err "Unexpected token")).feasibilityScore ≤ 100 :=
  score_in_range_under_range_respecting_parse 1 (ParseOutcome.err "Unexpected token")
    (fun _ _ _ h => nomatch h)

/-- C4 counterexample: when the generation call fails for participant
"Expert 1", the returned text is not "Error: Expert 1 call failed" and the
output-token estimate is not zero. -/
theorem generation_failure_text_and_metrics_mismatch :
    (runAgent true true "expert_1" "Expert 1" "Evaluate this proposal" true
        GenerationOutcome.failure 7).result ≠ "Error: Expert 1 call failed" ∧
    (runAgent true true "expert_1" "Expert 1" "Evaluate this proposal" true
        GenerationOutcome.failure 7).metrics.outputTokens ≠ 0 := by
  decide

/-- C4 amended: on a generation failure the invoker returns (never raises) the
in-band text "Error: Could not get response from agent NAME. Check console for
details." with the usual estimated metrics (elapsed duration, `ceil(len/4)`
token estimates, hence non-zero output tokens); all-zero metrics occur only on
the missing-configs and missing-config branches. -/
theorem generation_failure_returns_in_band_error (agentId agentName prompt : String)
    (elapsed : ℚ) :
    (runAgent true true agentId agentName prompt true GenerationOutcome.failure elapsed).result =
      "Error: Could not get response from agent " ++ agentName ++ ". Check console for details." ∧
    (runAgent true true agentId agentName prompt true GenerationOutcome.failure elapsed).metrics =
      { duration := elapsed
        inputTokens := countTokens prompt.data
        outputTokens := countTokens ("Error: Could not get response from agent " ++ agentName ++
          ". Check console for details.").data } ∧
    (runAgent false true agentId agentName prompt true GenerationOutcome.failure elapsed).metrics =
      { duration := 0, inputTokens := 0, outputTokens := 0 } ∧
    (runAgent true false agentId agentName prompt true GenerationOutcome.failure elapsed).metrics =
      { duration := 0, inputTokens := 0, outputTokens := 0 } :=
  ⟨rfl, rfl, rfl, rfl⟩

/-- C7 counterexample: for eight letters and budget 1 (which is at most the
estimated token length 2), truncating twice differs from truncating once — the
added marker pushes the first result back over budget, so the second pass
truncates again. -/
theorem truncation_not_idempotent_under_budget_overflow :
    1 ≤ countTokens (List.replicate 8 'a') ∧
    truncatePromptIfNeeded (truncatePromptIfNeeded (List.replicate 8 'a') 1) 1 ≠
      truncatePromptIfNeeded (List.replicate 8 'a') 1 := by
  decide

/-- C7 amended: truncation is idempotent exactly in the no-truncation case: when
the token estimate of `s` is within the budget `k` (at the claim's boundary
`k = ` estimated length), applying the guard twice equals applying it once.  For
`k` strictly below the estimate idempotence fails, per the counterexample. -/
theorem truncation_idempotent_when_within_budget (s : List Char) (k : Nat)
    (h : countTokens s ≤ k) :
    truncatePromptIfNeeded (truncatePromptIfNeeded s k) k = truncatePromptIfNeeded s k := by
  have h1 : truncatePromptIfNeeded s k = s := by
    unfold truncatePromptIfNeeded
    exact if_pos h
  rw [h1, h1]

/-- Witness for C7's amended theorem at a concrete in-budget input. -/
theorem truncation_idempotent_when_within_budget_witness :
    truncatePromptIfNeeded (truncatePromptIfNeeded (List.replicate 4 'a') 1) 1 =
      truncatePromptIfNeeded (List.replicate 4 'a') 1 :=
  truncation_idempotent_when_within_budget (List.replicate 4 'a') 1 (by decide)

/-- C3 counterexample: for the scores `[75, 82, 73, 90, 40]` the population
variance is 291.6, which exceeds 16.75², so the population standard deviation
is above 16.75 — not ≈ 16.74 as claimed (it is ≈ 17.08). -/
theorem p4_standard_deviation_not_16_74 :
    variance [75, 82, 73, 90, 40] = 1458 / 5 ∧
    ((1675 : ℚ) / 100) ^ 2 < 1458 / 5 := by
  constructor
  · norm_num [variance, mean]
  · norm_num

/-- C3 amended: for the scores `[75, 82, 73, 90, 40]` the engine yields
mean = 72, median = 75 and population variance 291.6, whose square root (the
population standard deviation) lies strictly between 17.07 and 17.08, giving
confidence Low; and the median is read off an ascending sorted permutation of
the input. -/
theorem statistics_values_for_p4_scores :
    mean [75, 82, 73, 90, 40] = 72 ∧
    median [75, 82, 73, 90, 40] = 75 ∧
    variance [75, 82, 73, 90, 40] = 1458 / 5 ∧
    ((1707 : ℚ) / 100) ^ 2 < 1458 / 5 ∧ (1458 : ℚ) / 5 < ((1708 : ℚ) / 100) ^ 2 ∧
    aggConfidenceLevel [75, 82, 73, 90, 40] = "Low" ∧
    (∀ l : List ℚ, (sortedScores l).Sorted (· ≤ ·) ∧ (sortedScores l).Perm l) := by
  have hvar : variance [75, 82, 73, 90, 40] = 1458 / 5 := by norm_num [variance, mean]
  have hsort : sortedScores [75, 82, 73, 90, 40] = [40, 73, 75, 82, 90] := by
    norm_num [sortedScores]
  refine ⟨by norm_num [mean], ?_, hvar, by norm_num, by norm_num, ?_, ?_⟩
  · rw [median, hsort]
    norm_num
  · rw [aggConfidenceLevel, hvar]
    norm_num
  · intro l
    exact ⟨List.sorted_insertionSort _ l, List.perm_insertionSort _ l⟩

/-- C6: the guard returns the prompt unchanged when the token estimate is within
the budget, and otherwise the truncated result's token estimate is at most the
budget plus the token cost of the prepended marker. -/
theorem truncation_budget_bound (s : List Char) (k : Nat) :
    (countTokens s ≤ k → truncatePromptIfNeeded s k = s) ∧
    (k < countTokens s →
      countTokens (truncatePromptIfNeeded s k) ≤ k + countTokens truncationMarker) := by
  constructor
  · intro h
    unfold truncatePromptIfNeeded
    exact if_pos h
  · intro h
    unfold truncatePromptIfNeeded
    rw [if_neg (by omega)]
    have hm : truncationMarker.length = 57 := by decide
    have hd : ((s.drop ((countTokens s - k) * 4)).dropWhile (fun c => c ≠ '\n')).length ≤
        s.length - (countTokens s - k) * 4 := by
      calc ((s.drop ((countTokens s - k) * 4)).dropWhile (fun c => c ≠ '\n')).length
          ≤ (s.drop ((countTokens s - k) * 4)).length :=
            (List.dropWhile_sublist _).length_le
        _ = s.length - (countTokens s - k) * 4 := List.length_drop _ _
    rw [countTokens, List.length_append, hm]
    unfold countTokens at h hd ⊢
    omega

/-- Witness for C6 at concrete inputs: a four-character prompt within budget 5 is
returned unchanged, and a nine-character prompt over budget 2 lands within the
budget plus the marker cost. -/
theorem truncation_budget_bound_witness :
    truncatePromptIfNeeded (List.replicate 4 'a') 5 = List.replicate 4 'a' ∧
    countTokens (truncatePromptIfNeeded (List.replicate 9 'a') 2) ≤
      2 + countTokens truncationMarker :=
  ⟨(truncation_budget_bound (List.replicate 4 'a') 5).1 (by decide),
   (truncation_budget_bound (List.replicate 9 'a') 2).2 (by decide)⟩

/-- C2: the orchestration loop produces exactly one evaluation record per
configured iteration (N records for N ≥ 1); a scoring call whose output fails to
parse contributes a record with the neutral score 50, a rationale embedding the
parse-error description, and `keyFactors = ["Parsing error occurred"]`; and when
every scoring call fails to parse, all N records carry score 50. -/
theorem iteration_count_and_parse_failure_policy (n : Nat) (parse : Nat → ParseOutcome)
    (hn : 1 ≤ n) :
    (independentEvaluations n parse).length = n ∧
    (∀ i msg, parse i = ParseOutcome.err msg →
      ∀ r ∈ independentEvaluations n parse, r.iteration = i →
        r.feasibilityScore = 50 ∧
        r.rationale = "Evaluation " ++ toString i ++ " failed to parse: " ++ msg ∧
        r.keyFactors = ["Parsing error occurred"]) ∧
    ((∀ i, 1 ≤ i → i ≤ n → ∃ msg, parse i = ParseOutcome.err msg) →
      ∀ r ∈ independentEvaluations n parse, r.feasibilityScore = 50) := by
  refine ⟨by simp [independentEvaluations], ?_, ?_⟩
  · intro i msg hp r hr hit
    obtain ⟨j, hj, rfl⟩ := List.mem_map.mp hr
    have hiter : (evaluationResult (j + 1) (parse (j + 1))).iteration = j + 1 := by
      cases hpj : parse (j + 1) <;> simp [evaluationResult]
    have hji : j + 1 = i := by rw [← hit, hiter]
    subst hji
    rw [hp]
    exact ⟨rfl, rfl, rfl⟩
  · intro hall r hr
    obtain ⟨j, hj, rfl⟩ := List.mem_map.mp hr
    have hjn : j + 1 ≤ n := by
      simp only [List.mem_range] at hj
      omega
    obtain ⟨msg, hmsg⟩ := hall (j + 1) (by omega) hjn
    rw [hmsg]
    rfl

/-- Witness for C2 at N = 2 with every scoring call failing to parse. -/
theorem iteration_count_and_parse_failure_policy_witness :
    (independentEvaluations 2 (fun _ => ParseOutcome.err "Unexpected end of JSON input")).length = 2 ∧
    (∀ i msg, (fun _ => ParseOutcome.err "Unexpected end of JSON input") i = ParseOutcome.err msg →
      ∀ r ∈ independentEvaluations 2 (fun _ => ParseOutcome.err "Unexpected end of JSON input"),
        r.iteration = i →
        r.feasibilityScore = 50 ∧
        r.rationale = "Evaluation " ++ toString i ++ " failed to parse: " ++ msg ∧
        r.keyFactors = ["Parsing error occurred"]) ∧
    ((∀ i, 1 ≤ i → i ≤ 2 →
        ∃ msg, (fun _ => ParseOutcome.err "Unexpected end of JSON input") i = ParseOutcome.err msg) →
      ∀ r ∈ independentEvaluations 2 (fun _ => ParseOutcome.err "Unexpected end of JSON input"),
        r.feasibilityScore = 50) :=
  iteration_count_and_parse_failure_policy 2
    (fun _ => ParseOutcome.err "Unexpected end of JSON input") (by omega)

/-- C8: for every non-empty score list the aggregation path and the
summary-panel recomputation produce the same confidence label, and that label is
High exactly when the population standard deviation is at most 5 (variance at
most 25), Medium exactly when it is in (5, 15] (variance in (25, 225]), and Low
otherwise. -/
theorem confidence_level_paths_agree (scores : List ℚ) (h : scores ≠ []) :
    calculateConfidenceLevel scores = aggConfidenceLevel scores ∧
    (aggConfidenceLevel scores = "High" ↔ variance scores ≤ 5 ^ 2) ∧
    (aggConfidenceLevel scores = "Medium" ↔
      5 ^ 2 < variance scores ∧ variance scores ≤ 15 ^ 2) ∧
    (aggConfidenceLevel scores = "Low" ↔ 15 ^ 2 < variance scores) := by
  have hlen : ¬ scores.length = 0 := by simpa using h
  have hHM : ("High" : String) ≠ "Medium" := by decide
  have hHL : ("High" : String) ≠ "Low" := by decide
  have hMH : ("Medium" : String) ≠ "High" := by decide
  have hML : ("Medium" : String) ≠ "Low" := by decide
  have hLH : ("Low" : String) ≠ "High" := by decide
  have hLM : ("Low" : String) ≠ "Medium" := by decide
  unfold calculateConfidenceLevel aggConfidenceLevel
  rw [if_neg hlen]
  refine ⟨rfl, ?_, ?_, ?_⟩ <;>
    by_cases h1 : variance scores ≤ 25 <;>
      by_cases h2 : variance scores ≤ 225 <;>
        simp only [if_pos, if_neg, h1, h2, if_true, if_false, ite_true, ite_false] <;>
          norm_num <;>
            first
              | (exact fun hc => absurd hc hHM)
              | (exact fun hc => absurd hc hHL)
              | (exact fun hc => absurd hc hMH)
              | (exact fun hc => absurd hc hML)
              | (exact fun hc => absurd hc hLH)
              | (exact fun hc => absurd hc hLM)
              | constructor <;> first | linarith | (intro hc; linarith) | tauto
              | linarith

/-- Witness for C8 at the non-empty score list `[75, 82, 73, 90, 40]`. -/
theorem confidence_level_paths_agree_witness :
    calculateConfidenceLevel [75, 82, 73, 90, 40] = aggConfidenceLevel [75, 82, 73, 90, 40] ∧
    (aggConfidenceLevel [75, 82, 73, 90, 40] = "High" ↔
      variance [75, 82, 73, 90, 40] ≤ 5 ^ 2) ∧
    (aggConfidenceLevel [75, 82, 73, 90, 40] = "Medium" ↔
      5 ^ 2 < variance [75, 82, 73, 90, 40] ∧ variance [75, 82, 73, 90, 40] ≤ 15 ^ 2) ∧
    (aggConfidenceLevel [75, 82, 73, 90, 40] = "Low" ↔
      15 ^ 2 < variance [75, 82, 73, 90, 40]) :=
  confidence_level_paths_agree [75, 82, 73, 90, 40] (by simp)

/-- C9: in a full run, a call carries the web-search capability exactly when the
run-level toggle is on and the invoked participant id is an expert discussion
role (`expert_` prefix); classification, summarization, decision-scoring and
tracker calls never carry it, whatever the toggle. -/
theorem search_capability_restricted_to_expert_agents (n : Nat) (searchEnabled : Bool)
    (c : AgentCall) (hc : c ∈ runSimulationCalls n searchEnabled) :
    c.useSearch = true ↔ (searchEnabled = true ∧ jsStartsWith c.agentId "expert_" = true) := by
  have hiter : ∀ d ∈ runSingleIterationCalls searchEnabled,
      d.useSearch = true ↔ (searchEnabled = true ∧ jsStartsWith d.agentId "expert_" = true) := by
    intro d hd
    rw [runSingleIterationCalls] at hd
    rcases List.mem_append.mp hd with hd | hd
    · obtain ⟨t, ht, hd⟩ := List.mem_flatMap.mp hd
      obtain ⟨id, hid, rfl⟩ := List.mem_map.mp hd
      rw [expertAgentIds] at hid
      simp only [List.mem_cons, List.not_mem_nil, or_false] at hid
      rcases hid with rfl | rfl | rfl <;> cases searchEnabled <;> decide
    · simp only [List.mem_singleton] at hd
      subst hd
      cases searchEnabled <;> decide
  rw [runSimulationCalls] at hc
  rcases List.mem_append.mp hc with hc | hc
  · rcases List.mem_append.mp hc with hc | hc
    · simp only [List.mem_cons, List.not_mem_nil, or_false] at hc
      rcases hc with rfl | rfl <;> cases searchEnabled <;> decide
    · obtain ⟨t, ht, hc⟩ := List.mem_flatMap.mp hc
      exact hiter c hc
  · simp only [List.mem_singleton] at hc
    subst hc
    cases searchEnabled <;> decide

/-- Witness for C9: the first expert call of a one-iteration run with the toggle
on, which does carry search. -/
theorem search_capability_restricted_to_expert_agents_witness :
    (AgentCall.mk "expert_1" true).useSearch = true ↔
      (true = true ∧ jsStartsWith (AgentCall.mk "expert_1" true).agentId "expert_" = true) :=
  search_capability_restricted_to_expert_agents 1 true (AgentCall.mk "expert_1" true)
    (by decide)

/-- Helper: JavaScript rounding of an integer-valued median is that integer. -/
theorem jsRound_intCast (m : ℤ) : jsRound (m : ℚ) = m := by
  rw [jsRound, show ((m : ℚ) + 1 / 2) = 1 / 2 + (m : ℚ) by ring, Int.floor_add_int]
  norm_num

/-- C1 counterexample: at median 75 the aggregation path decides "Proceed"
(its threshold is 70) while the rendering path decides "Proceed with Caution"
(its threshold is 80), so the two code paths do not assign the same category to
every median value. -/
theorem aggregation_and_rendering_disagree_at_median_75 :
    aggDecision 75 = "Proceed" ∧ renderRecommendation 75 = "Proceed with Caution" ∧
    aggDecision 75 ≠ renderRecommendation 75 := by
  have h1 : aggDecision 75 = "Proceed" := by norm_num [aggDecision]
  have h2 : renderRecommendation 75 = "Proceed with Caution" := by
    have h75c : (75 : ℚ) = ((75 : ℤ) : ℚ) := by norm_num
    rw [renderRecommendation, h75c, jsRound_intCast]
    norm_num
  refine ⟨h1, h2, ?_⟩
  rw [h1, h2]
  decide

/-- C1 amended: for every integer median in [0, 100] the rendering path follows
the claimed thresholds (Proceed above 80, Proceed with Caution on [50, 80],
Not Recommended on [30, 49], Do Not Proceed below 30), while the aggregation
path instead uses only three categories with thresholds 70 and 50, so the two
code paths do not assign the same category to every median value. -/
theorem decision_thresholds_render_vs_aggregation (m : ℤ) (h0 : 0 ≤ m) (h1 : m ≤ 100) :
    renderRecommendation (m : ℚ) = specDecision (m : ℚ) ∧
    (aggDecision (m : ℚ) = "Proceed" ↔ 70 ≤ m) ∧
    (aggDecision (m : ℚ) = "Proceed with Caution" ↔ 50 ≤ m ∧ m < 70) ∧
    (aggDecision (m : ℚ) = "Do not proceed" ↔ m < 50) ∧
    ¬ (∀ q : ℚ, 0 ≤ q → q ≤ 100 → aggDecision q = renderRecommendation q) := by
  have hr : jsRound (m : ℚ) = m := jsRound_intCast m
  have c80 : ((80 : ℚ) < (m : ℚ)) ↔ 80 < m := by exact_mod_cast Iff.rfl
  have c70 : ((70 : ℚ) ≤ (m : ℚ)) ↔ 70 ≤ m := by exact_mod_cast Iff.rfl
  have c50 : ((50 : ℚ) ≤ (m : ℚ)) ↔ 50 ≤ m := by exact_mod_cast Iff.rfl
  have c30 : ((30 : ℚ) ≤ (m : ℚ)) ↔ 30 ≤ m := by exact_mod_cast Iff.rfl
  refine ⟨?_, ?_, ?_, ?_, ?_⟩
  · rw [renderRecommendation, specDecision, hr]
    by_cases h80 : m > 80
    · rw [if_pos h80, if_pos (c80.mpr h80)]
    · rw [if_neg h80, if_neg (fun hq => h80 (c80.mp hq))]
      by_cases h50 : 50 ≤ m
      · rw [if_pos h50, if_pos (c50.mpr h50)]
      · rw [if_neg h50, if_neg (fun hq => h50 (c50.mp hq))]
        by_cases h30 : 30 ≤ m
        · rw [if_pos h30, if_pos (c30.mpr h30)]
        · rw [if_neg h30, if_neg (fun hq => h30 (c30.mp hq))]
  · rw [aggDecision]
    by_cases h70 : (m : ℚ) ≥ 70
    · rw [if_pos h70]
      exact iff_of_true rfl (c70.mp h70)
    · rw [if_neg h70]
      have h70i : ¬ 70 ≤ m := fun h => h70 (c70.mpr h)
      by_cases h50 : (m : ℚ) ≥ 50
      · rw [if_pos h50]
        exact iff_of_false (by decide) h70i
      · rw [if_neg h50]
        exact iff_of_false (by decide) h70i
  · rw [aggDecision]
    by_cases h70 : (m : ℚ) ≥ 70
    · rw [if_pos h70]
      exact iff_of_false (by decide) (fun h => by have := c70.mp h70; omega)
    · rw [if_neg h70]
      have h70i : ¬ 70 ≤ m := fun h => h70 (c70.mpr h)
      by_cases h50 : (m : ℚ) ≥ 50
      · rw [if_pos h50]
        exact iff_of_true rfl ⟨c50.mp h50, by omega⟩
      · rw [if_neg h50]
        have h50i : ¬ 50 ≤ m := fun h => h50 (c50.mpr h)
        exact iff_of_false (by decide) (fun h => h50i h.1)
  · rw [aggDecision]
    by_cases h70 : (m : ℚ) ≥ 70
    · rw [if_pos h70]
      exact iff_of_false (by decide) (fun h => by have := c70.mp h70; omega)
    · rw [if_neg h70]
      by_cases h50 : (m : ℚ) ≥ 50
      · rw [if_pos h50]
        exact iff_of_false (by decide) (fun h => by have := c50.mp h50; omega)
      · rw [if_neg h50]
        have h50i : ¬ 50 ≤ m := fun h => h50 (c50.mpr h)
        exact iff_of_true rfl (by omega)
  · intro hall
    have h75 := hall 75 (by norm_num) (by norm_num)
    have ha : aggDecision 75 = "Proceed" := by norm_num [aggDecision]
    have hb : renderRecommendation 75 = "Proceed with Caution" := by
      have h75c : (75 : ℚ) = ((75 : ℤ) : ℚ) := by norm_num
      rw [renderRecommendation, h75c, jsRound_intCast]
      norm_num
    rw [ha, hb] at h75
    exact absurd h75 (by decide)

/-- Witness for C1's amended theorem at the integer median 75. -/
theorem decision_thresholds_render_vs_aggregation_witness :
    renderRecommendation ((75 : ℤ) : ℚ) = specDecision ((75 : ℤ) : ℚ) ∧
    (aggDecision ((75 : ℤ) : ℚ) = "Proceed" ↔ 70 ≤ (75 : ℤ)) ∧
    (aggDecision ((75 : ℤ) : ℚ) = "Proceed with Caution" ↔
      50 ≤ (75 : ℤ) ∧ (75 : ℤ) < 70) ∧
    (aggDecision ((75 : ℤ) : ℚ) = "Do not proceed" ↔ (75 : ℤ) < 50) ∧
    ¬ (∀ q : ℚ, 0 ≤ q → q ≤ 100 → aggDecision q = renderRecommendation q) :=
  decision_thresholds_render_vs_aggregation 75 (by norm_num) (by norm_num)
